import Mathlib

/-!
Shallow embedding of `src/app/backend/app.py`, a minimal Flask connectivity
probe for an RDS MySQL instance.

The Python module reads one environment variable (`RDS_HOST`, with a literal
default), fixes the remaining connection parameters as literal constants, and
exposes a single route `GET /` whose handler tries
`mysql.connector.connect(host=..., user=..., password=..., port=...)`:
on success it returns the fixed success string, and on any exception `e` it
returns the failure string embedding `str(e)[:50]` followed by `"..."`.

The network behaviour of `mysql.connector.connect` is modelled by an
explicit outcome (success, or an exception carrying its string form); the
handler itself is the pure function of that outcome that the source defines.
-/

namespace App

/-- Python `os.environ.get(name, default)`, specialised to the single lookup
the module performs: `env` is the value of the `RDS_HOST` environment
variable when it is set. -/
def osEnvironGet (env : Option String) (default : String) : String :=
  match env with
  | some v => v
  | none => default

/-- `RDS_HOST = os.environ.get("RDS_HOST", "your-db-endpoint.rds.amazonaws.com")` -/
def RDS_HOST (env : Option String) : String :=
  osEnvironGet env "your-db-endpoint.rds.amazonaws.com"

/-- `RDS_PORT = 3306` -/
def RDS_PORT : Nat := 3306

/-- `RDS_USER = "admin"` -/
def RDS_USER : String := "admin"

/-- `RDS_PASS = "MyDBPass123!"` -/
def RDS_PASS : String := "MyDBPass123!"

/-- `RDS_DB = "testdb"` -/
def RDS_DB : String := "testdb"

/-- The module-level state fixed at process start: the five constants the
module defines at top level. -/
structure ModuleState where
  host : String
  user : String
  password : String
  port : Nat
  db : String
deriving DecidableEq, Repr

/-- The module state as initialised at import time from the environment. -/
def initState (env : Option String) : ModuleState :=
  { host := RDS_HOST env
    user := RDS_USER
    password := RDS_PASS
    port := RDS_PORT
    db := RDS_DB }

/-- The keyword arguments actually passed to `mysql.connector.connect`:
`host=RDS_HOST, user=RDS_USER, password=RDS_PASS, port=RDS_PORT`. -/
structure ConnectParams where
  host : String
  user : String
  password : String
  port : Nat
deriving DecidableEq, Repr

/-- The connect call of the handler reads exactly four of the module
constants; `RDS_DB` is not among them. -/
def connectParamsOf (s : ModuleState) : ConnectParams :=
  { host := s.host, user := s.user, password := s.password, port := s.port }

/-- The connect call as the literal keyword-argument list of the source,
keys in source order. -/
def connectKwargs (s : ModuleState) : List (String × String) :=
  [("host", s.host), ("user", s.user), ("password", s.password),
   ("port", toString s.port)]

/-- Outcome of the `mysql.connector.connect` attempt: either a connection is
established, or an exception is raised whose `str` form is `msg`. -/
inductive ConnectOutcome where
  | success
  | exception (msg : String)
deriving DecidableEq, Repr

/-- An HTTP response: Flask turns the returned string into a 200 plain-text
response. -/
structure HttpResponse where
  status : Nat
  body : String
deriving DecidableEq, Repr

/-- Python character slicing `s[:n]`: the first `n` codepoints of `s`
(all of `s` when it is shorter). -/
def strSlice (s : String) (n : Nat) : String :=
  ⟨s.data.take n⟩

/-- The error-detail segment the failure branch embeds: `str(e)[:50]`. -/
def errorDetail (e : String) : String :=
  strSlice e 50

/-- The success return string of line 23 of the source. -/
def successBody : String :=
  "✅ Connected to RDS MySQL instance"

/-- The failure return string of line 25 of the source:
`f"⚠️ Backend is running but RDS connection failed: {str(e)[:50]}..."`. -/
def failureBody (e : String) : String :=
  "⚠️ Backend is running but RDS connection failed: " ++ errorDetail e ++ "..."

/-- The body of the `home` handler after the connect attempt resolved:
the `try` branch returns the success string, the `except Exception` branch
returns the failure string. -/
def homeResponse (outcome : ConnectOutcome) : HttpResponse :=
  match outcome with
  | .success => { status := 200, body := successBody }
  | .exception e => { status := 200, body := failureBody e }

/-- One full execution of the `home` handler over the module state: it
issues the connect call built from the module constants, turns the outcome
into a response, and leaves the module state as it was (the handler assigns
to no module-level name). -/
def homeFull (s : ModuleState) (outcome : ConnectOutcome) :
    HttpResponse × ModuleState :=
  (homeResponse outcome, s)

/-- Database operations a handler execution can perform. -/
inductive DbOp where
  | connect (p : ConnectParams)
  | query (sql : String)
  | close
deriving DecidableEq, Repr

/-- The trace of database operations one execution of `home` performs: the
single connect attempt of lines 17–22, and nothing else — the source issues
no query and no explicit close before returning. -/
def homeTrace (s : ModuleState) (outcome : ConnectOutcome) :
    List DbOp × HttpResponse :=
  ([DbOp.connect (connectParamsOf s)], homeResponse outcome)

/-- The inbound HTTP request, with everything Flask would let a handler
read from it. -/
structure HttpRequest where
  path : String
  headers : List (String × String)
  query : List (String × String)
  body : String

/-- The routed handler applied to an inbound request: the source's `home`
takes no argument and reads nothing from `flask.request`, so the request is
received and not consumed. -/
def handleRequest (req : HttpRequest) (outcome : ConnectOutcome) :
    HttpResponse :=
  homeResponse outcome

/-- Sequential service of a list of probe requests, one connect outcome per
request, threading the module state through: returns the responses in order
and the final module state. -/
def runRequests (s : ModuleState) (outcomes : List ConnectOutcome) :
    List HttpResponse × ModuleState :=
  match outcomes with
  | [] => ([], s)
  | o :: rest =>
      let (r, s') := homeFull s o
      let (rs, s'') := runRequests s' rest
      (r :: rs, s'')

end App

/-- C1: every exception raised by the connect attempt, whatever its message,
is caught by the handler, which returns a plain-text 200 response and leaves
the module state intact; `homeFull` is a total function of the outcome, so
no exception propagates to a process-level failure. -/
theorem C1_exceptions_caught (s : App.ModuleState) (e : String) :
    ((App.homeFull s (.exception e)).1).status = 200 ∧
    (App.homeFull s (.exception e)).2 = s :=
  ⟨rfl, rfl⟩

/-- C2 counterexample: for the one-character exception message `"x"`, the
error-detail segment embedded in the body is `"x"` itself, whose length is
1, not 50: `str(e)[:50]` truncates to at most 50 characters but does not pad
shorter messages. -/
theorem C2_counterexample :
    (App.homeResponse (.exception "x")).body =
      "⚠️ Backend is running but RDS connection failed: " ++
        App.errorDetail "x" ++ "..." ∧
    (App.errorDetail "x").length ≠ 50 := by
  exact ⟨rfl, by decide⟩

/-- C2 amended: the error-detail segment embedded in the body has exactly
`min (length of the message) 50` characters — at most 50 always, and exactly
50 precisely when the exception's string form has at least 50 characters. -/
theorem C2_truncation (e : String) :
    (App.homeResponse (.exception e)).body = App.failureBody e ∧
    (App.errorDetail e).length = min e.length 50 := by
  refine ⟨rfl, ?_⟩
  show (e.data.take 50).length = min e.data.length 50
  rw [List.length_take, Nat.min_comm]

/-- C3: on every exception, the response has status 200 and its body is the
fixed failure head, then the first at-most-50 characters of the exception's
string form, then the ellipsis. -/
theorem C3_failure_shape (e : String) :
    (App.homeResponse (.exception e)).status = 200 ∧
    (App.homeResponse (.exception e)).body =
      "⚠️ Backend is running but RDS connection failed: " ++
        App.errorDetail e ++ "..." ∧
    App.errorDetail e = App.strSlice e 50 ∧
    (App.errorDetail e).length ≤ 50 := by
  refine ⟨rfl, rfl, rfl, ?_⟩
  show (e.data.take 50).length ≤ 50
  exact List.length_take_le 50 e.data

/-- C4: whenever the connect attempt succeeds, the handler returns status
200 with body exactly the success string, and leaves the module state
unchanged. -/
theorem C4_success_body (s : App.ModuleState) :
    App.homeFull s .success =
      ({ status := 200, body := "✅ Connected to RDS MySQL instance" }, s) :=
  rfl

/-- C5: the hostname passed to the connect attempt is the value of the
`RDS_HOST` environment variable when set and the literal default otherwise,
while port, user and password are fixed literals for every environment. -/
theorem C5_host_from_env (v : String) (env : Option String) :
    (App.connectParamsOf (App.initState (some v))).host = v ∧
    (App.connectParamsOf (App.initState none)).host =
      "your-db-endpoint.rds.amazonaws.com" ∧
    (App.connectParamsOf (App.initState env)).port = 3306 ∧
    (App.connectParamsOf (App.initState env)).user = "admin" ∧
    (App.connectParamsOf (App.initState env)).password = "MyDBPass123!" :=
  ⟨rfl, rfl, rfl, rfl, rfl⟩

/-- C6: every request gets a status-200 response whose body is one of
exactly two shapes, the fixed success string or the failure string built
from some exception message. -/
theorem C6_two_body_forms (o : App.ConnectOutcome) :
    (App.homeResponse o).status = 200 ∧
    ((App.homeResponse o).body = App.successBody ∨
      ∃ e, (App.homeResponse o).body = App.failureBody e) := by
  cases o with
  | success => exact ⟨rfl, Or.inl rfl⟩
  | exception e => exact ⟨rfl, Or.inr ⟨e, rfl⟩⟩

/-- C7: serving any sequence of requests leaves the module state exactly as
it was at process start, and the list of responses is the pointwise image of
the outcomes under the handler — each response depends only on its own
connect outcome, never on the position in the sequence or on earlier
requests. -/
theorem C7_stateless_sequence (s : App.ModuleState)
    (outcomes : List App.ConnectOutcome) :
    (App.runRequests s outcomes).2 = s ∧
    (App.runRequests s outcomes).1 = outcomes.map App.homeResponse := by
  induction outcomes with
  | nil => exact ⟨rfl, rfl⟩
  | cons o rest ih =>
      refine ⟨?_, ?_⟩ <;>
        simp [App.runRequests, App.homeFull, ih.1, ih.2]

/-- C8: the handler reads nothing from the HTTP request — two requests with
arbitrary differing headers, query parameters or bodies whose connect
attempts resolve the same way receive identical responses. -/
theorem C8_request_not_consumed (r₁ r₂ : App.HttpRequest)
    (o : App.ConnectOutcome) :
    App.handleRequest r₁ o = App.handleRequest r₂ o :=
  rfl

/-- C9: the database-operation trace of one handler execution is exactly the
single connect attempt — in particular no query is ever issued on a
successfully opened connection before the handler returns. -/
theorem C9_no_query_issued (s : App.ModuleState) (o : App.ConnectOutcome)
    (sql : String) :
    (App.homeTrace s o).1 = [App.DbOp.connect (App.connectParamsOf s)] ∧
    App.DbOp.query sql ∉ (App.homeTrace s o).1 := by
  refine ⟨rfl, ?_⟩
  simp [App.homeTrace]

/-- C10: the connect call supplies exactly the keywords host, user, password
and port — no `database` keyword — and both the parameters of the connect
call and the handler's response are unchanged when the `RDS_DB` constant is
replaced by any other value. -/
theorem C10_db_never_passed (s : App.ModuleState) (db₁ db₂ v : String)
    (o : App.ConnectOutcome) :
    (App.connectKwargs s).map Prod.fst = ["host", "user", "password", "port"] ∧
    ("database", v) ∉ App.connectKwargs s ∧
    App.connectParamsOf { s with db := db₁ } =
      App.connectParamsOf { s with db := db₂ } ∧
    (App.homeFull { s with db := db₁ } o).1 =
      (App.homeFull { s with db := db₂ } o).1 := by
  refine ⟨rfl, ?_, rfl, rfl⟩
  simp [App.connectKwargs]
